import Mathlib

/-!
Verification development for the CMakeForge CLI (src/src/main.rs).

The tool manages a persisted JSON configuration document (`CacheJson`) with
three catalogs of named command specifications (`builds`, `runs`,
`configurations`), a list of selectable target names (`build_targets`) and a
single selection pointer (`current_build_target`).  The subcommands
init / configure / select-current-build / build / run are embedded below as
pure functions:

  * the persisted file is modeled at the JSON-value level (`Option JsonValue`:
    `none` = the file does not exist, `some j` = the file holds the JSON value
    `j`); serde_json's text printer/parser sit below this level and are not
    part of the program under verification,
  * standard input is an explicit `String` argument,
  * subprocess execution is an oracle `exec : CmdInvocation → SpawnOutcome`
    giving, for each attempted spawn, either a spawn failure or the exit
    status of the child; the list of attempted invocations is returned so
    that "no subprocess is spawned" is expressible.
-/

/-- JSON values, as relevant to the document schema (serde_json `Value`
restricted to the constructors the schema produces: strings, booleans,
arrays and objects). -/
inductive JsonValue where
  | str (s : String)
  | bool (b : Bool)
  | arr (elems : List JsonValue)
  | obj (fields : List (String × JsonValue))

/-- Entry of `builds` (struct `BuildJson`, main.rs lines 49-54). -/
structure BuildJson where
  name : String
  command : String
  args : List String
deriving Repr, DecidableEq

/-- Entry of `runs` (struct `RunJson`, main.rs lines 56-62). -/
structure RunJson where
  name : String
  command : String
  args : List String
  pre_build : Bool
deriving Repr, DecidableEq

/-- Entry of `configurations` (struct `ConfigureJson`, main.rs lines 64-69). -/
structure ConfigureJson where
  name : String
  command : String
  args : List String
deriving Repr, DecidableEq

/-- The persisted configuration document (struct `CacheJson`,
main.rs lines 38-47). -/
structure CacheJson where
  workspace : String
  build_targets : List String
  current_build_target : String
  builds : List BuildJson
  runs : List RunJson
  configurations : List ConfigureJson
deriving Repr, DecidableEq

/-- First value bound to key `k`, as serde's map-access visits fields. -/
def lookupField (k : String) : List (String × JsonValue) → Option JsonValue
  | [] => none
  | (k', v) :: rest => if k' == k then some v else lookupField k rest

/-- Field access on a JSON object; `none` on any other JSON shape. -/
def JsonValue.getField (j : JsonValue) (k : String) : Option JsonValue :=
  match j with
  | .obj fields => lookupField k fields
  | _ => none

def JsonValue.asString : JsonValue → Option String
  | .str s => some s
  | _ => none

def JsonValue.asBool : JsonValue → Option Bool
  | .bool b => some b
  | _ => none

def JsonValue.asArr : JsonValue → Option (List JsonValue)
  | .arr elems => some elems
  | _ => none

/-- Decode every element of a JSON array with `f`, failing if any element
fails (serde's `Vec<T>` deserialization). -/
def listFromJson (f : JsonValue → Option α) : List JsonValue → Option (List α)
  | [] => some []
  | j :: rest =>
    match f j, listFromJson f rest with
    | some a, some as' => some (a :: as')
    | _, _ => none

/-- Serialization of a `BuildJson` entry (derived `Serialize`: an object with
the struct's fields in declaration order). -/
def BuildJson.toJson (b : BuildJson) : JsonValue :=
  .obj [("name", .str b.name), ("command", .str b.command),
        ("args", .arr (b.args.map .str))]

/-- Deserialization of a `BuildJson` entry (derived `Deserialize`: fields
looked up by name). -/
def BuildJson.fromJson (j : JsonValue) : Option BuildJson :=
  match (j.getField "name").bind JsonValue.asString,
        (j.getField "command").bind JsonValue.asString,
        (j.getField "args").bind JsonValue.asArr with
  | some n, some c, some a =>
    match listFromJson JsonValue.asString a with
    | some args => some ⟨n, c, args⟩
    | none => none
  | _, _, _ => none

/-- Serialization of a `RunJson` entry. -/
def RunJson.toJson (r : RunJson) : JsonValue :=
  .obj [("name", .str r.name), ("command", .str r.command),
        ("args", .arr (r.args.map .str)), ("pre_build", .bool r.pre_build)]

/-- Deserialization of a `RunJson` entry. -/
def RunJson.fromJson (j : JsonValue) : Option RunJson :=
  match (j.getField "name").bind JsonValue.asString,
        (j.getField "command").bind JsonValue.asString,
        (j.getField "args").bind JsonValue.asArr,
        (j.getField "pre_build").bind JsonValue.asBool with
  | some n, some c, some a, some p =>
    match listFromJson JsonValue.asString a with
    | some args => some ⟨n, c, args, p⟩
    | none => none
  | _, _, _, _ => none

/-- Serialization of a `ConfigureJson` entry. -/
def ConfigureJson.toJson (c : ConfigureJson) : JsonValue :=
  .obj [("name", .str c.name), ("command", .str c.command),
        ("args", .arr (c.args.map .str))]

/-- Deserialization of a `ConfigureJson` entry. -/
def ConfigureJson.fromJson (j : JsonValue) : Option ConfigureJson :=
  match (j.getField "name").bind JsonValue.asString,
        (j.getField "command").bind JsonValue.asString,
        (j.getField "args").bind JsonValue.asArr with
  | some n, some c, some a =>
    match listFromJson JsonValue.asString a with
    | some args => some ⟨n, c, args⟩
    | none => none
  | _, _, _ => none

/-- Serialization of the whole document (derived `Serialize` on `CacheJson`:
field names `workspace`, `build_targets`, `current_build_target`, `builds`,
`runs`, `configurations`). -/
def CacheJson.toJson (c : CacheJson) : JsonValue :=
  .obj [("workspace", .str c.workspace),
        ("build_targets", .arr (c.build_targets.map .str)),
        ("current_build_target", .str c.current_build_target),
        ("builds", .arr (c.builds.map BuildJson.toJson)),
        ("runs", .arr (c.runs.map RunJson.toJson)),
        ("configurations", .arr (c.configurations.map ConfigureJson.toJson))]

/-- Deserialization of the whole document (derived `Deserialize` on
`CacheJson`: every field required, fields found by name). -/
def CacheJson.fromJson (j : JsonValue) : Option CacheJson :=
  match (j.getField "workspace").bind JsonValue.asString,
        (j.getField "build_targets").bind JsonValue.asArr,
        (j.getField "current_build_target").bind JsonValue.asString,
        (j.getField "builds").bind JsonValue.asArr,
        (j.getField "runs").bind JsonValue.asArr,
        (j.getField "configurations").bind JsonValue.asArr with
  | some ws, some bt, some cbt, some bs, some rs, some cs =>
    match listFromJson JsonValue.asString bt,
          listFromJson BuildJson.fromJson bs,
          listFromJson RunJson.fromJson rs,
          listFromJson ConfigureJson.fromJson cs with
    | some bt', some bs', some rs', some cs' =>
      some ⟨ws, bt', cbt, bs', rs', cs'⟩
    | _, _, _, _ => none
  | _, _, _, _, _, _ => none

/-! ## Command Runner (`run_command`, main.rs lines 92-119) -/

/-- Exit status of a waited-for child process: `success` is Rust's
`ExitStatus::success()` (true exactly when the exit code is 0), `display` is
the status's `Display` rendering (e.g. "exit status: 2") used in the error
message. -/
structure ExitStatus where
  success : Bool
  display : String
deriving Repr, DecidableEq

/-- One attempted `Command::new(command).args(args).current_dir(cwd).spawn()`. -/
structure CmdInvocation where
  command : String
  args : List String
  cwd : String
deriving Repr, DecidableEq

/-- Environment's answer to a spawn attempt: the OS refuses the spawn, or the
child runs and `wait()` reports the given exit status. -/
inductive SpawnOutcome where
  | spawnErr (e : String)
  | spawned (status : ExitStatus)

/-- One iteration result of `BufReader::lines()`: a line, or an I/O error. -/
inductive LineResult where
  | line (s : String)
  | ioErr (e : String)

/-- A spawned child as `run_command` sees it: the piped stdout/stderr handles
(`None` when the corresponding stream was not requested with
`Stdio::piped()`), and the exit status `wait()` will report. -/
structure Child where
  stdout : Option (List LineResult)
  stderr : Option (List LineResult)
  status : ExitStatus

/-- The `for line in reader.lines() { println!("{}", line?); }` loop: returns
the lines printed before the first read error, and that error if any. -/
def drain : List LineResult → List String × Option String
  | [] => ([], none)
  | .line s :: rest =>
    let (ls, e) := drain rest
    (s :: ls, e)
  | .ioErr e :: _ => ([], some e)

/-- What one `run_command` call did: its result, the child-output lines it
relayed to the caller's stdout resp. stderr, and the spawns it attempted. -/
structure RunOutcome where
  result : Except String Unit
  printedOut : List String
  printedErr : List String
  invocations : List CmdInvocation

/-- Body of `run_command` after the spawn (main.rs lines 98-118): relay the
piped stdout if present (a read error propagates immediately via `?`), then
the piped stderr, then wait and turn a non-success status into
`"Command failed with status: <status>"`. -/
def run_command_on_child (child : Child) : Except String Unit × List String × List String :=
  let (outPrinted, outErr) :=
    match child.stdout with
    | none => ([], none)
    | some ls => drain ls
  match outErr with
  | some e => (.error e, outPrinted, [])
  | none =>
    let (errPrinted, errReadErr) :=
      match child.stderr with
      | none => ([], none)
      | some ls => drain ls
    match errReadErr with
    | some e => (.error e, outPrinted, errPrinted)
    | none =>
      if child.status.success then (.ok (), outPrinted, errPrinted)
      else (.error ("Command failed with status: " ++ child.status.display),
            outPrinted, errPrinted)

/-- `Command::new(command).args(args).current_dir(workspace).spawn()`:
the builder never calls `.stdout(Stdio::piped())` or
`.stderr(Stdio::piped())`, so on success the `Child`'s `stdout` and `stderr`
handles are `None` (std::process semantics: the handle fields are only `Some`
when that stream was requested as piped; otherwise the child inherits the
parent's streams). -/
def spawn (exec : CmdInvocation → SpawnOutcome) (inv : CmdInvocation) :
    Except String Child :=
  match exec inv with
  | .spawnErr e => .error e
  | .spawned st => .ok { stdout := none, stderr := none, status := st }

/-- `run_command(workspace, command, args)` (main.rs lines 92-119). -/
def run_command (exec : CmdInvocation → SpawnOutcome) (workspace : String)
    (command : String) (args : List String) : RunOutcome :=
  let inv : CmdInvocation := ⟨command, args, workspace⟩
  match spawn exec inv with
  | .error e => ⟨.error e, [], [], [inv]⟩
  | .ok child =>
    let (res, po, pe) := run_command_on_child child
    ⟨res, po, pe, [inv]⟩

/-! ## Target lookup and the dispatcher operations -/

/-- The lookup contract of §4.3: linear search, first entry whose name equals
the argument (exact `String` equality). Each operation's `for` loop below is
proved equivalent to acting on `find_by_name`'s result. -/
def find_by_name {α : Type} (getName : α → String) (target : String) :
    List α → Option α
  | [] => none
  | x :: rest => if getName x == target then some x else find_by_name getName target rest

/-- Result of one CLI operation: its `Result`, the persisted file after the
operation (`none` = no file), and the spawns attempted. -/
structure OpResult where
  result : Except String Unit
  file : Option JsonValue
  invocations : List CmdInvocation

/-- `read_cache` (main.rs lines 357-362): `File::open` fails when the file is
missing, then the content is parsed against the schema. -/
def read_cache (file : Option JsonValue) : Except String CacheJson :=
  match file with
  | none => .error "No such file or directory (os error 2)"
  | some j =>
    match CacheJson.fromJson j with
    | none => .error "invalid cache document"
    | some c => .ok c

/-- The `for curr_build in &cache.builds` loop of `build_current_target`
(main.rs lines 238-245): first name match runs `curr_build.build(workspace)`,
i.e. `run_command` on the entry's command/args; no match is the
"Build target not found" error. -/
def build_loop (exec : CmdInvocation → SpawnOutcome) (workspace : String)
    (current : String) : List BuildJson → Except String Unit × List CmdInvocation
  | [] => (.error ("Build target not found: " ++ current), [])
  | b :: rest =>
    if b.name == current then
      let r := run_command exec workspace b.command b.args
      (r.result, r.invocations)
    else build_loop exec workspace current rest

/-- `build_current_target` (main.rs lines 227-246): missing file is the fixed
"No build target selected" error before anything is read or parsed; otherwise
read, parse, and dispatch on `builds`. Never writes the file. -/
def build_current_target (exec : CmdInvocation → SpawnOutcome)
    (file : Option JsonValue) (workspace : String) : OpResult :=
  match file with
  | none => ⟨.error "No build target selected", none, []⟩
  | some j =>
    match CacheJson.fromJson j with
    | none => ⟨.error "invalid cache document", some j, []⟩
    | some cache =>
      let (res, invs) := build_loop exec workspace cache.current_build_target cache.builds
      ⟨res, some j, invs⟩

/-- Body executed for the matching run entry (main.rs lines 253-259): when
`pre_build` is set, `build_current_target(json_path, workspace)?` runs first
and its failure aborts (the run command is not spawned); then the entry's
command is run. -/
def run_entry (exec : CmdInvocation → SpawnOutcome) (file : Option JsonValue)
    (workspace : String) (r : RunJson) : Except String Unit × List CmdInvocation :=
  if r.pre_build then
    let b := build_current_target exec file workspace
    match b.result with
    | .error e => (.error e, b.invocations)
    | .ok _ =>
      let rr := run_command exec workspace r.command r.args
      (rr.result, b.invocations ++ rr.invocations)
  else
    let rr := run_command exec workspace r.command r.args
    (rr.result, rr.invocations)

/-- The `for curr_run in &cache.runs` loop of `run_current_target`
(main.rs lines 252-262). -/
def run_loop (exec : CmdInvocation → SpawnOutcome) (file : Option JsonValue)
    (workspace : String) (current : String) :
    List RunJson → Except String Unit × List CmdInvocation
  | [] => (.error ("Run target not found: " ++ current), [])
  | r :: rest =>
    if r.name == current then run_entry exec file workspace r
    else run_loop exec file workspace current rest

/-- `run_current_target` (main.rs lines 248-263): `read_cache`, then dispatch
on `runs` by `current_build_target`. Never writes the file. -/
def run_current_target (exec : CmdInvocation → SpawnOutcome)
    (file : Option JsonValue) (workspace : String) : OpResult :=
  match read_cache file with
  | .error e => ⟨.error e, file, []⟩
  | .ok cache =>
    let (res, invs) := run_loop exec file workspace cache.current_build_target cache.runs
    ⟨res, file, invs⟩

/-- The `for curr_config in &cache.configurations` loop of
`configure_current_build_target` (main.rs lines 271-278). -/
def configure_loop (exec : CmdInvocation → SpawnOutcome) (workspace : String)
    (current : String) : List ConfigureJson → Except String Unit × List CmdInvocation
  | [] => (.error ("Configure target not found: " ++ current), [])
  | c :: rest =>
    if c.name == current then
      let r := run_command exec workspace c.command c.args
      (r.result, r.invocations)
    else configure_loop exec workspace current rest

/-- `configure_current_build_target` (main.rs lines 265-279): `read_cache`,
then dispatch on `configurations` by `current_build_target`. Never writes the
file. -/
def configure_current_build_target (exec : CmdInvocation → SpawnOutcome)
    (file : Option JsonValue) (workspace : String) : OpResult :=
  match read_cache file with
  | .error e => ⟨.error e, file, []⟩
  | .ok cache =>
    let (res, invs) :=
      configure_loop exec workspace cache.current_build_target cache.configurations
    ⟨res, file, invs⟩

/-! ## Rust string primitives used on interactive input -/

/-- Rust `char::is_whitespace` restricted to the ASCII whitespace that
terminal input can contain (space, tab, newline, carriage return). -/
def isRustWhitespace (c : Char) : Bool :=
  c == ' ' || c == '\t' || c == '\n' || c == '\r'

/-- Rust `str::trim`: strip leading and trailing whitespace. -/
def rustTrim (l : List Char) : List Char :=
  ((l.dropWhile isRustWhitespace).reverse.dropWhile isRustWhitespace).reverse

/-- Rust `char::to_lowercase` on the characters relevant here: ASCII
uppercase letters map to lowercase, everything else is unchanged. -/
def lowerChar (c : Char) : Char :=
  if 65 ≤ c.toNat ∧ c.toNat ≤ 90 then Char.ofNat (c.toNat + 32) else c

/-- Rust `str::to_lowercase` (ASCII fragment). -/
def rustLower (l : List Char) : List Char := l.map lowerChar

/-- `input.trim().to_lowercase()` as a `String → String` function. -/
def trimLower (s : String) : String := ⟨rustLower (rustTrim s.data)⟩

/-- Decimal digit value of a character, if it is a digit. -/
def digitVal (c : Char) : Option Nat :=
  if 48 ≤ c.toNat ∧ c.toNat ≤ 57 then some (c.toNat - 48) else none

/-- Accumulate decimal digits; any non-digit fails. -/
def digitsToNat (acc : Nat) : List Char → Option Nat
  | [] => some acc
  | c :: rest =>
    match digitVal c with
    | some d => digitsToNat (acc * 10 + d) rest
    | none => none

/-- Rust `input.trim().parse::<usize>()`: optional leading `+`, then one or
more decimal digits (the value-range cap of `usize` is not modeled; the
claims never reach it). -/
def parseUsize (s : String) : Option Nat :=
  match rustTrim s.data with
  | [] => none
  | '+' :: [] => none
  | '+' :: rest => digitsToNat 0 rest
  | l => digitsToNat 0 l

/-! ## init (`confirm_overwrite` / `create_json_in_workspace`,
main.rs lines 121-184) -/

/-- `confirm_overwrite` (main.rs lines 121-128): read a line, and accept
exactly when it trims and lowercases to "y" or "yes". -/
def confirm_overwrite (input : String) : Bool :=
  trimLower input == "y" || trimLower input == "yes"

/-- The scaffold document `create_json_in_workspace` writes
(main.rs lines 143-177). -/
def default_cache (workspace : String) : CacheJson :=
  { workspace := workspace
    build_targets := ["test1", "test2"]
    current_build_target := "test1"
    builds := [⟨"test1", "cmake ..", ["-DCMAKE_BUILD_TYPE=Debug"]⟩]
    runs := [⟨"test1", "/my/super/app", ["--arg1", "--arg2"], true⟩,
             ⟨"test2", "/my/super/app", ["--arg1", "--arg2"], true⟩]
    configurations :=
      [⟨"test1", "cmake",
        ["-DCMAKE_BUILD_TYPE=Debug", "-DCMAKE_EXPORT_COMPILE_COMMANDS=ON",
         "-G", "Ninja"]⟩] }

/-- `create_json_in_workspace` (main.rs lines 134-184): when the file exists,
a declined confirmation returns early leaving the file untouched (plain
`return`, not an error — the function has no error channel at all);
otherwise the scaffold document is serialized and written. `input` is the
line read by `confirm_overwrite` (consulted only when the file exists). -/
def create_json_in_workspace (file : Option JsonValue) (input : String)
    (workspace : String) : Option JsonValue :=
  match file with
  | some j =>
    if confirm_overwrite input then some (CacheJson.toJson (default_cache workspace))
    else some j
  | none => some (CacheJson.toJson (default_cache workspace))

/-! ## select-current-build (`select_current_build_target`,
main.rs lines 186-225) -/

/-- `select_current_build_target` (main.rs lines 186-225): missing file is an
error; otherwise parse the document, parse the typed index from the input
line (`"Invalid input"` on parse failure), reject `index >=
build_targets.len()` with `"Invalid index"` leaving the file unchanged, and
otherwise set `current_build_target = build_targets[index]` and write the
updated document back. -/
def select_current_build_target (file : Option JsonValue) (input : String) :
    Except String Unit × Option JsonValue :=
  match file with
  | none => (.error "Json file does not exist", none)
  | some j =>
    match CacheJson.fromJson j with
    | none => (.error "invalid cache document", some j)
    | some cache =>
      match parseUsize input with
      | none => (.error "Invalid input", some j)
      | some index =>
        if index ≥ cache.build_targets.length then (.error "Invalid index", some j)
        else
          (.ok (),
           some (CacheJson.toJson
             { cache with current_build_target := cache.build_targets[index]! }))

/-! ## Concrete samples used to instantiate theorems -/

/-- A concrete document (the init scaffold for workspace "/proj"). -/
def sampleCache : CacheJson := default_cache "/proj"

/-- Its serialized form, i.e. the persisted file's content. -/
def sampleJson : JsonValue := CacheJson.toJson sampleCache

/-- Oracle under which every spawn succeeds and every child exits 0. -/
def execAllOk : CmdInvocation → SpawnOutcome :=
  fun _ => .spawned ⟨true, "exit status: 0"⟩

/-- Oracle under which every spawn succeeds and every child exits 2. -/
def execAllFail : CmdInvocation → SpawnOutcome :=
  fun _ => .spawned ⟨false, "exit status: 2"⟩

/-- A document whose `configurations` catalog has no entry named
`current_build_target`. -/
def noCfgCache : CacheJson :=
  { workspace := "/proj"
    build_targets := ["t1"]
    current_build_target := "t1"
    builds := []
    runs := []
    configurations := [⟨"other", "cmake", []⟩] }

/-- A document whose `runs` catalog has two entries named "t1": the first
with `pre_build = false`, the second with `pre_build = true`. -/
def dupRunsCache : CacheJson :=
  { workspace := "/proj"
    build_targets := ["t1"]
    current_build_target := "t1"
    builds := [⟨"t1", "buildcmd", []⟩]
    runs := [⟨"t1", "runA", [], false⟩, ⟨"t1", "runB", [], true⟩]
    configurations := [] }

/-! ## Helper lemmas -/

theorem listFromJson_map {α : Type} (f : α → JsonValue) (g : JsonValue → Option α)
    (h : ∀ a, g (f a) = some a) (xs : List α) :
    listFromJson g (xs.map f) = some xs := by
  induction xs with
  | nil => rfl
  | cons x xs ih => simp [listFromJson, h, ih]

theorem buildJson_roundtrip (b : BuildJson) :
    BuildJson.fromJson b.toJson = some b := by
  simp [BuildJson.toJson, BuildJson.fromJson, JsonValue.getField, lookupField,
    JsonValue.asString, JsonValue.asArr, Option.bind,
    listFromJson_map JsonValue.str JsonValue.asString (fun _ => rfl)]

theorem runJson_roundtrip (r : RunJson) :
    RunJson.fromJson r.toJson = some r := by
  simp [RunJson.toJson, RunJson.fromJson, JsonValue.getField, lookupField,
    JsonValue.asString, JsonValue.asArr, JsonValue.asBool, Option.bind,
    listFromJson_map JsonValue.str JsonValue.asString (fun _ => rfl)]

theorem configureJson_roundtrip (c : ConfigureJson) :
    ConfigureJson.fromJson c.toJson = some c := by
  simp [ConfigureJson.toJson, ConfigureJson.fromJson, JsonValue.getField,
    lookupField, JsonValue.asString, JsonValue.asArr, Option.bind,
    listFromJson_map JsonValue.str JsonValue.asString (fun _ => rfl)]

theorem cacheJson_roundtrip (c : CacheJson) :
    CacheJson.fromJson c.toJson = some c := by
  simp [CacheJson.toJson, CacheJson.fromJson, JsonValue.getField, lookupField,
    JsonValue.asString, JsonValue.asArr, Option.bind,
    listFromJson_map JsonValue.str JsonValue.asString (fun _ => rfl),
    listFromJson_map BuildJson.toJson BuildJson.fromJson buildJson_roundtrip,
    listFromJson_map RunJson.toJson RunJson.fromJson runJson_roundtrip,
    listFromJson_map ConfigureJson.toJson ConfigureJson.fromJson
      configureJson_roundtrip]

theorem find_by_name_of_first {α : Type} (getName : α → String) (n : String)
    (xs : List α) (e : α) (ys : List α)
    (hxs : ∀ x ∈ xs, getName x ≠ n) (he : getName e = n) :
    find_by_name getName n (xs ++ e :: ys) = some e := by
  induction xs with
  | nil => simp [find_by_name, he]
  | cons x xs ih =>
    have hx : (getName x == n) = false :=
      beq_eq_false_iff_ne.mpr (hxs x (List.mem_cons_self x xs))
    simp only [List.cons_append, find_by_name, hx, if_false]
    exact ih (fun y hy => hxs y (List.mem_cons_of_mem x hy))

theorem find_by_name_of_none {α : Type} (getName : α → String) (n : String)
    (l : List α) (h : ∀ x ∈ l, getName x ≠ n) :
    find_by_name getName n l = none := by
  induction l with
  | nil => rfl
  | cons x xs ih =>
    have hx : (getName x == n) = false :=
      beq_eq_false_iff_ne.mpr (h x (List.mem_cons_self x xs))
    simp only [find_by_name, hx, if_false]
    exact ih (fun y hy => h y (List.mem_cons_of_mem x hy))

theorem build_loop_eq_find (exec : CmdInvocation → SpawnOutcome) (ws current : String)
    (bs : List BuildJson) :
    build_loop exec ws current bs =
      match find_by_name BuildJson.name current bs with
      | some b => ((run_command exec ws b.command b.args).result,
                   (run_command exec ws b.command b.args).invocations)
      | none => (.error ("Build target not found: " ++ current), []) := by
  induction bs with
  | nil => rfl
  | cons b rest ih =>
    by_cases h : b.name = current
    · simp [build_loop, find_by_name, h]
    · simp [build_loop, find_by_name, beq_eq_false_iff_ne.mpr h, ih]

theorem configure_loop_eq_find (exec : CmdInvocation → SpawnOutcome)
    (ws current : String) (cs : List ConfigureJson) :
    configure_loop exec ws current cs =
      match find_by_name ConfigureJson.name current cs with
      | some c => ((run_command exec ws c.command c.args).result,
                   (run_command exec ws c.command c.args).invocations)
      | none => (.error ("Configure target not found: " ++ current), []) := by
  induction cs with
  | nil => rfl
  | cons c rest ih =>
    by_cases h : c.name = current
    · simp [configure_loop, find_by_name, h]
    · simp [configure_loop, find_by_name, beq_eq_false_iff_ne.mpr h, ih]

theorem run_loop_eq_find (exec : CmdInvocation → SpawnOutcome)
    (file : Option JsonValue) (ws current : String) (rs : List RunJson) :
    run_loop exec file ws current rs =
      match find_by_name RunJson.name current rs with
      | some r => run_entry exec file ws r
      | none => (.error ("Run target not found: " ++ current), []) := by
  induction rs with
  | nil => rfl
  | cons r rest ih =>
    by_cases h : r.name = current
    · simp [run_loop, find_by_name, h]
    · simp [run_loop, find_by_name, beq_eq_false_iff_ne.mpr h, ih]

theorem run_command_result_eq (exec : CmdInvocation → SpawnOutcome)
    (ws cmd : String) (args : List String) :
    run_command exec ws cmd args =
      match exec ⟨cmd, args, ws⟩ with
      | .spawnErr e => ⟨.error e, [], [], [⟨cmd, args, ws⟩]⟩
      | .spawned st =>
        if st.success then ⟨.ok (), [], [], [⟨cmd, args, ws⟩]⟩
        else ⟨.error ("Command failed with status: " ++ st.display), [], [],
              [⟨cmd, args, ws⟩]⟩ := by
  cases h : exec ⟨cmd, args, ws⟩ with
  | spawnErr e => simp [run_command, spawn, h]
  | spawned st =>
    by_cases hs : st.success
    · simp [run_command, spawn, h, run_command_on_child, hs]
    · simp [run_command, spawn, h, run_command_on_child, hs]

/-! ## Claims -/

/-- C3: for every valid configuration document `d`, serializing `d` to its
JSON wire format and deserializing the result yields `d` again
(`load(save(d)) == d`). -/
theorem C3_load_save_roundtrip (d : CacheJson) :
    CacheJson.fromJson (CacheJson.toJson d) = some d :=
  cacheJson_roundtrip d

/-- C10: when the config file does not exist, the Build operation fails with
the fixed message "No build target selected" (not a file-not-found message),
before reading or parsing anything, and spawns no subprocess. -/
theorem C10_build_missing_file (exec : CmdInvocation → SpawnOutcome) (ws : String) :
    build_current_target exec none ws =
      ⟨.error "No build target selected", none, []⟩ :=
  rfl

/-- C7: `run_command` waits for the child and returns an error exactly when
the spawn fails or the exit status is non-zero (with the piped-stream reads
absent, those are the only error sources); a non-zero exit produces the
message "Command failed with status: <status>", a zero exit produces
success, and a spawn failure propagates the OS error. -/
theorem C7_run_command_result (exec : CmdInvocation → SpawnOutcome)
    (ws cmd : String) (args : List String) :
    ((run_command exec ws cmd args).result = .ok () ↔
       ∃ st, exec ⟨cmd, args, ws⟩ = .spawned st ∧ st.success = true)
    ∧ (∀ e, exec ⟨cmd, args, ws⟩ = .spawnErr e →
        (run_command exec ws cmd args).result = .error e)
    ∧ (∀ st, exec ⟨cmd, args, ws⟩ = .spawned st → st.success = false →
        (run_command exec ws cmd args).result =
          .error ("Command failed with status: " ++ st.display)) := by
  refine ⟨?_, ?_, ?_⟩
  · cases h : exec ⟨cmd, args, ws⟩ with
    | spawnErr e => simp [run_command_result_eq, h]
    | spawned st =>
      by_cases hs : st.success <;> simp [run_command_result_eq, h, hs]
  · intro e he
    simp [run_command_result_eq, he]
  · intro st hst hs
    simp [run_command_result_eq, hst, hs]

/-- C7 witness: under an oracle whose children exit with status 2, the result
is the "Command failed with status: exit status: 2" error. -/
theorem C7_run_command_result_witness :
    execAllFail ⟨"cc", [], "/proj"⟩ = .spawned ⟨false, "exit status: 2"⟩ ∧
    (run_command execAllFail "/proj" "cc" []).result =
      .error ("Command failed with status: " ++ "exit status: 2") :=
  ⟨rfl, (C7_run_command_result execAllFail "/proj" "cc" []).2.2
    ⟨false, "exit status: 2"⟩ rfl rfl⟩

/-- C9: the Command Runner never relays any child-output line itself: the
spawn is configured without `Stdio::piped()`, so the child's `stdout` and
`stderr` handles are `None`, both relay loops iterate zero times, and the
lists of lines the tool writes to its own stdout/stderr are empty for every
invocation (the child's output reaches the terminal only by fd inheritance,
outside the program). This refutes the claimed line-buffered
stdout-then-stderr relay. -/
theorem C9_no_stream_relay (exec : CmdInvocation → SpawnOutcome)
    (ws cmd : String) (args : List String) :
    (run_command exec ws cmd args).printedOut = [] ∧
    (run_command exec ws cmd args).printedErr = [] := by
  cases h : exec ⟨cmd, args, ws⟩ with
  | spawnErr e => simp [run_command_result_eq, h]
  | spawned st =>
    by_cases hs : st.success <;> simp [run_command_result_eq, h, hs]

/-- C1: with the document parsing to `cache` and the typed line parsing to
index `i`, selection with `i < len(build_targets)` succeeds and persists the
document with `current_build_target = build_targets[i]`, while selection
with `i >= len(build_targets)` reports the "Invalid index" error and leaves
the persisted document unchanged. -/
theorem C1_select_index (j : JsonValue) (cache : CacheJson) (input : String)
    (i : Nat) (hj : CacheJson.fromJson j = some cache)
    (hi : parseUsize input = some i) :
    (i < cache.build_targets.length →
      select_current_build_target (some j) input =
        (.ok (), some (CacheJson.toJson
          { cache with current_build_target := cache.build_targets[i]! })))
    ∧ (cache.build_targets.length ≤ i →
      select_current_build_target (some j) input =
        (.error "Invalid index", some j)) := by
  constructor
  · intro h
    simp [select_current_build_target, hj, hi, Nat.not_le_of_lt h]
  · intro h
    simp [select_current_build_target, hj, hi, h]

/-- C1 witness: on the scaffold document (two build targets) and input line
"1\n", selection succeeds and persists `current_build_target = "test2"`;
the out-of-range conjunct holds vacuously. -/
theorem C1_select_index_witness :
    CacheJson.fromJson sampleJson = some sampleCache ∧
    parseUsize "1\n" = some 1 ∧
    ((1 < sampleCache.build_targets.length →
      select_current_build_target (some sampleJson) "1\n" =
        (.ok (), some (CacheJson.toJson
          { sampleCache with
            current_build_target := sampleCache.build_targets[1]! })))
    ∧ (sampleCache.build_targets.length ≤ 1 →
      select_current_build_target (some sampleJson) "1\n" =
        (.error "Invalid index", some sampleJson))) :=
  ⟨by decide, by decide,
   C1_select_index sampleJson sampleCache "1\n" 1 (by decide) (by decide)⟩

/-- C4: `confirm_overwrite` accepts exactly the lines whose trimmed,
lowercased content is "y" or "yes" (case-insensitive acceptance), and on an
existing file a declined confirmation makes init return without error and
leave the file exactly as it was, while an accepted confirmation overwrites
it with the scaffold; the empty answer declines. (The init operation has no
error channel at all, so a decline cannot be an error.) -/
theorem C4_init_confirm (j : JsonValue) (input ws : String) :
    (confirm_overwrite input = true ↔
       trimLower input = "y" ∨ trimLower input = "yes")
    ∧ (confirm_overwrite input = false →
        create_json_in_workspace (some j) input ws = some j)
    ∧ (confirm_overwrite input = true →
        create_json_in_workspace (some j) input ws =
          some (CacheJson.toJson (default_cache ws)))
    ∧ confirm_overwrite "" = false := by
  refine ⟨?_, ?_, ?_, ?_⟩
  · simp [confirm_overwrite]
  · intro h
    simp [create_json_in_workspace, h]
  · intro h
    simp [create_json_in_workspace, h]
  · decide

/-- C4 witness: the answer "n" declines and the existing file is returned
unchanged. -/
theorem C4_init_confirm_witness :
    confirm_overwrite "n\n" = false ∧
    create_json_in_workspace (some sampleJson) "n\n" "/proj" = some sampleJson :=
  ⟨by decide, (C4_init_confirm sampleJson "n\n" "/proj").2.1 (by decide)⟩

/-- C5: when no entry of `configurations` is named `current_build_target`,
the Configure operation fails with the error
"Configure target not found: <name>" containing the missing name, spawns no
subprocess, and leaves the file unchanged. -/
theorem C5_configure_not_found (exec : CmdInvocation → SpawnOutcome)
    (j : JsonValue) (cache : CacheJson) (ws : String)
    (hj : CacheJson.fromJson j = some cache)
    (hnone : ∀ c ∈ cache.configurations, c.name ≠ cache.current_build_target) :
    configure_current_build_target exec (some j) ws =
      ⟨.error ("Configure target not found: " ++ cache.current_build_target),
       some j, []⟩ := by
  simp [configure_current_build_target, read_cache, hj, configure_loop_eq_find,
    find_by_name_of_none ConfigureJson.name cache.current_build_target
      cache.configurations hnone]

/-- C5 witness: a document with `current_build_target = "t1"` and a single
configuration entry named "other" makes configure fail with
"Configure target not found: t1" and spawn nothing. -/
theorem C5_configure_not_found_witness :
    CacheJson.fromJson (CacheJson.toJson noCfgCache) = some noCfgCache ∧
    (∀ c ∈ noCfgCache.configurations,
       c.name ≠ noCfgCache.current_build_target) ∧
    configure_current_build_target execAllOk
        (some (CacheJson.toJson noCfgCache)) "/proj" =
      ⟨.error ("Configure target not found: " ++ noCfgCache.current_build_target),
       some (CacheJson.toJson noCfgCache), []⟩ :=
  ⟨by decide, by decide,
   C5_configure_not_found execAllOk (CacheJson.toJson noCfgCache) noCfgCache
     "/proj" (by decide) (by decide)⟩

theorem build_file_frame (exec : CmdInvocation → SpawnOutcome)
    (file : Option JsonValue) (ws : String) :
    (build_current_target exec file ws).file = file := by
  cases file with
  | none => rfl
  | some j =>
    cases h : CacheJson.fromJson j with
    | none => simp [build_current_target, h]
    | some cache =>
      rcases hbl : build_loop exec ws cache.current_build_target cache.builds
        with ⟨res, invs⟩
      simp [build_current_target, h, hbl]

theorem run_file_frame (exec : CmdInvocation → SpawnOutcome)
    (file : Option JsonValue) (ws : String) :
    (run_current_target exec file ws).file = file := by
  cases hr : read_cache file with
  | error e => simp [run_current_target, hr]
  | ok cache =>
    rcases hl : run_loop exec file ws cache.current_build_target cache.runs
      with ⟨res, invs⟩
    simp [run_current_target, hr, hl]

theorem configure_file_frame (exec : CmdInvocation → SpawnOutcome)
    (file : Option JsonValue) (ws : String) :
    (configure_current_build_target exec file ws).file = file := by
  cases hr : read_cache file with
  | error e => simp [configure_current_build_target, hr]
  | ok cache =>
    rcases hl : configure_loop exec ws cache.current_build_target
        cache.configurations with ⟨res, invs⟩
    simp [configure_current_build_target, hr, hl]

/-- C2 counterexample: a document whose `runs` catalog does contain an entry
named `current_build_target` with `pre_build = true` (the second one), but
whose first entry of that name has `pre_build = false`: the Run operation
spawns only that first entry's command ("runA") and never performs the Build
operation (the build command "buildcmd" is not spawned), contradicting the
claim as stated. -/
theorem C2_counterexample :
    (∃ r ∈ dupRunsCache.runs,
       r.name = dupRunsCache.current_build_target ∧ r.pre_build = true) ∧
    (run_current_target execAllOk
        (some (CacheJson.toJson dupRunsCache)) "/proj").invocations =
      [⟨"runA", [], "/proj"⟩] ∧
    (⟨"buildcmd", [], "/proj"⟩ : CmdInvocation) ∉
      (run_current_target execAllOk
        (some (CacheJson.toJson dupRunsCache)) "/proj").invocations := by
  refine ⟨?_, ?_, ?_⟩ <;> decide

/-- C2 (amended): when the FIRST entry of `runs` named `current_build_target`
has `pre_build = true`, the Run operation performs the full Build operation
first: a Build failure is propagated as the Run result and the run entry's
command is never spawned (the spawn list is exactly Build's); on Build
success the run entry's command is spawned after Build's spawns. -/
theorem C2_pre_build_first (exec : CmdInvocation → SpawnOutcome)
    (j : JsonValue) (cache : CacheJson) (ws : String)
    (xs ys : List RunJson) (r : RunJson)
    (hj : CacheJson.fromJson j = some cache)
    (hruns : cache.runs = xs ++ r :: ys)
    (hxs : ∀ x ∈ xs, x.name ≠ cache.current_build_target)
    (hr : r.name = cache.current_build_target)
    (hpre : r.pre_build = true) :
    ((build_current_target exec (some j) ws).result = .ok () →
      run_current_target exec (some j) ws =
        ⟨(run_command exec ws r.command r.args).result, some j,
         (build_current_target exec (some j) ws).invocations ++
           (run_command exec ws r.command r.args).invocations⟩)
    ∧ (∀ e, (build_current_target exec (some j) ws).result = .error e →
        run_current_target exec (some j) ws =
          ⟨.error e, some j,
           (build_current_target exec (some j) ws).invocations⟩) := by
  have hfind : find_by_name RunJson.name cache.current_build_target cache.runs
      = some r := by
    rw [hruns]
    exact find_by_name_of_first RunJson.name cache.current_build_target
      xs r ys hxs hr
  have hloop : run_loop exec (some j) ws cache.current_build_target cache.runs
      = run_entry exec (some j) ws r := by
    rw [run_loop_eq_find, hfind]
  constructor
  · intro hok
    simp [run_current_target, read_cache, hj, hloop, run_entry, hpre, hok]
  · intro e he
    simp [run_current_target, read_cache, hj, hloop, run_entry, hpre, he]

/-- C2 (amended) witness: on the scaffold document, whose first (and only
matching) run entry "test1" has `pre_build = true`, under the
everything-exits-2 oracle the Build failure propagates: the Run result is
the build error and only the build spawn happened. -/
theorem C2_pre_build_first_witness :
    CacheJson.fromJson sampleJson = some sampleCache ∧
    sampleCache.runs =
      [] ++ (⟨"test1", "/my/super/app", ["--arg1", "--arg2"], true⟩ : RunJson) ::
        [⟨"test2", "/my/super/app", ["--arg1", "--arg2"], true⟩] ∧
    (((build_current_target execAllFail (some sampleJson) "/proj").result
        = .ok () →
      run_current_target execAllFail (some sampleJson) "/proj" =
        ⟨(run_command execAllFail "/proj" "/my/super/app"
            ["--arg1", "--arg2"]).result, some sampleJson,
         (build_current_target execAllFail (some sampleJson) "/proj").invocations
           ++ (run_command execAllFail "/proj" "/my/super/app"
                ["--arg1", "--arg2"]).invocations⟩)
    ∧ (∀ e, (build_current_target execAllFail (some sampleJson) "/proj").result
          = .error e →
        run_current_target execAllFail (some sampleJson) "/proj" =
          ⟨.error e, some sampleJson,
           (build_current_target execAllFail
             (some sampleJson) "/proj").invocations⟩)) :=
  ⟨by decide, by decide,
   C2_pre_build_first execAllFail sampleJson sampleCache "/proj" []
     [⟨"test2", "/my/super/app", ["--arg1", "--arg2"], true⟩]
     ⟨"test1", "/my/super/app", ["--arg1", "--arg2"], true⟩
     (by decide) (by decide) (by decide) (by decide) (by decide)⟩

/-- C6: each of the three dispatch loops (build/configure/run) is exactly a
linear first-match lookup `find_by_name` on the entry's `name` field under
plain string equality (no normalization), and `find_by_name` returns the
first matching entry even when later duplicates of the name exist. -/
theorem C6_first_match_lookup :
    (∀ (exec : CmdInvocation → SpawnOutcome) (ws current : String)
       (bs : List BuildJson),
       build_loop exec ws current bs =
         match find_by_name BuildJson.name current bs with
         | some b => ((run_command exec ws b.command b.args).result,
                      (run_command exec ws b.command b.args).invocations)
         | none => (.error ("Build target not found: " ++ current), []))
    ∧ (∀ (exec : CmdInvocation → SpawnOutcome) (ws current : String)
        (cs : List ConfigureJson),
        configure_loop exec ws current cs =
          match find_by_name ConfigureJson.name current cs with
          | some c => ((run_command exec ws c.command c.args).result,
                       (run_command exec ws c.command c.args).invocations)
          | none => (.error ("Configure target not found: " ++ current), []))
    ∧ (∀ (exec : CmdInvocation → SpawnOutcome) (file : Option JsonValue)
        (ws current : String) (rs : List RunJson),
        run_loop exec file ws current rs =
          match find_by_name RunJson.name current rs with
          | some r => run_entry exec file ws r
          | none => (.error ("Run target not found: " ++ current), []))
    ∧ (∀ (α : Type) (getName : α → String) (n : String) (xs : List α) (e : α)
        (ys : List α), (∀ x ∈ xs, getName x ≠ n) → getName e = n →
        find_by_name getName n (xs ++ e :: ys) = some e) :=
  ⟨build_loop_eq_find, configure_loop_eq_find, run_loop_eq_find,
   fun _ getName n xs e ys hxs he =>
     find_by_name_of_first getName n xs e ys hxs he⟩

/-- C6 witness: with duplicates named "t" after a non-matching entry, the
first "t" entry is the one found. -/
theorem C6_first_match_lookup_witness :
    (∀ x ∈ [(⟨"a", "c0", []⟩ : BuildJson)], BuildJson.name x ≠ "t") ∧
    BuildJson.name (⟨"t", "c1", ["x"]⟩ : BuildJson) = "t" ∧
    find_by_name BuildJson.name "t"
      ([(⟨"a", "c0", []⟩ : BuildJson)] ++
        (⟨"t", "c1", ["x"]⟩ : BuildJson) :: [(⟨"t", "c2", []⟩ : BuildJson)]) =
      some ⟨"t", "c1", ["x"]⟩ :=
  ⟨by decide, by decide,
   C6_first_match_lookup.2.2.2 BuildJson BuildJson.name "t" [⟨"a", "c0", []⟩]
     ⟨"t", "c1", ["x"]⟩ [⟨"t", "c2", []⟩] (by decide) (by decide)⟩

/-- C8: the configure/build/run operations leave the persisted document
exactly as it was in every case, and a successful selection writes back the
document whose `current_build_target` is `build_targets[i]` and whose
`workspace`, `build_targets`, `builds`, `runs` and `configurations` fields
are exactly those of the loaded document. -/
theorem C8_only_selection_writes :
    (∀ (exec : CmdInvocation → SpawnOutcome) (file : Option JsonValue)
       (ws : String),
       (build_current_target exec file ws).file = file ∧
       (run_current_target exec file ws).file = file ∧
       (configure_current_build_target exec file ws).file = file)
    ∧ (∀ (j : JsonValue) (cache : CacheJson) (input : String) (i : Nat),
        CacheJson.fromJson j = some cache → parseUsize input = some i →
        i < cache.build_targets.length →
        (select_current_build_target (some j) input).2 =
          some (CacheJson.toJson
            { workspace := cache.workspace
              build_targets := cache.build_targets
              current_build_target := cache.build_targets[i]!
              builds := cache.builds
              runs := cache.runs
              configurations := cache.configurations })) := by
  constructor
  · intro exec file ws
    exact ⟨build_file_frame exec file ws, run_file_frame exec file ws,
           configure_file_frame exec file ws⟩
  · intro j cache input i hj hi h
    simp [select_current_build_target, hj, hi, Nat.not_le_of_lt h]

/-- C8 witness: on the scaffold document, build leaves the file untouched and
selecting index 0 persists the document that differs only in
`current_build_target`. -/
theorem C8_only_selection_writes_witness :
    (build_current_target execAllOk (some sampleJson) "/proj").file
      = some sampleJson ∧
    (CacheJson.fromJson sampleJson = some sampleCache ∧
     parseUsize "0" = some 0 ∧ 0 < sampleCache.build_targets.length) ∧
    (select_current_build_target (some sampleJson) "0").2 =
      some (CacheJson.toJson
        { workspace := sampleCache.workspace
          build_targets := sampleCache.build_targets
          current_build_target := sampleCache.build_targets[0]!
          builds := sampleCache.builds
          runs := sampleCache.runs
          configurations := sampleCache.configurations }) :=
  ⟨(C8_only_selection_writes.1 execAllOk (some sampleJson) "/proj").1,
   ⟨by decide, by decide, by decide⟩,
   C8_only_selection_writes.2 sampleJson sampleCache "0" 0
     (by decide) (by decide) (by decide)⟩
